import Mathlib

/-!
Verification of the catena-tui configuration console against its
natural-language specification.  The Python modules
(`tui.py`, `tui_menu.py`, `SetupWizard.py`, `HostnameManager.py`,
`TimezoneManager.py`, `TimeManager.py`) are shallowly embedded below:
pure logic becomes Lean functions, widget state becomes explicit record
state, subprocess outcomes become `Except` / `Bool` parameters, and a
Python exception escaping a function is an `Except.error` result.
-/

namespace Catena

/-! ### String primitives modelling the Python string operations used -/

/-- Model of Python whitespace as stripped by `str.strip()`. -/
def isPySpace (c : Char) : Bool :=
  c = ' ' || c = '\t' || c = '\n' || c = '\r' || c = '\x0b' || c = '\x0c'

/-- Model of Python `str.strip()`: drop whitespace from both ends. -/
def pyStrip (s : String) : String :=
  ⟨((s.data.dropWhile isPySpace).reverse.dropWhile isPySpace).reverse⟩

/-- `listIsPrefixOf n h` decides whether `n` is an initial segment of `h`. -/
def listIsPrefixOf : List Char → List Char → Bool
  | [], _ => true
  | _ :: _, [] => false
  | a :: as, b :: bs => a = b && listIsPrefixOf as bs

/-- `containsSub n h` decides whether `n` occurs contiguously inside `h`;
this models the Python `in` operator on strings. -/
def containsSub (needle : List Char) : List Char → Bool
  | [] => needle.isEmpty
  | b :: bs => listIsPrefixOf needle (b :: bs) || containsSub needle bs

/-- Python `needle in hay` for strings. -/
def strContains (hay needle : String) : Bool :=
  containsSub needle.data hay.data

/-- Declarative substring occurrence, used to state the meaning of
`strContains` non-definitionally. -/
def OccursIn (needle hay : String) : Prop :=
  ∃ pre post : List Char, hay.data = pre ++ needle.data ++ post

theorem listIsPrefixOf_iff (n h : List Char) :
    listIsPrefixOf n h = true ↔ ∃ post, h = n ++ post := by
  induction n generalizing h with
  | nil => simp [listIsPrefixOf]
  | cons a as ih =>
    cases h with
    | nil => simp [listIsPrefixOf]
    | cons b bs =>
      simp only [listIsPrefixOf, Bool.and_eq_true, decide_eq_true_eq, ih,
        List.cons_append, List.cons.injEq]
      constructor
      · rintro ⟨rfl, post, rfl⟩; exact ⟨post, rfl, rfl⟩
      · rintro ⟨post, rfl, rfl⟩; exact ⟨rfl, post, rfl⟩

theorem containsSub_iff (n h : List Char) :
    containsSub n h = true ↔ ∃ pre post, h = pre ++ n ++ post := by
  induction h with
  | nil =>
    simp only [containsSub, List.isEmpty_iff]
    constructor
    · rintro rfl; exact ⟨[], [], rfl⟩
    · rintro ⟨pre, post, hpp⟩
      rcases List.append_eq_nil.mp (List.append_eq_nil.mp hpp.symm).1 with ⟨-, h2⟩
      exact h2
  | cons b bs ih =>
    simp only [containsSub, Bool.or_eq_true, listIsPrefixOf_iff, ih]
    constructor
    · rintro (⟨post, hpost⟩ | ⟨pre, post, rfl⟩)
      · exact ⟨[], post, by simpa using hpost⟩
      · exact ⟨b :: pre, post, by simp⟩
    · rintro ⟨pre, post, hpp⟩
      cases pre with
      | nil => exact Or.inl ⟨post, by simpa using hpp⟩
      | cons p ps =>
        rcases List.cons.inj hpp with ⟨-, htail⟩
        exact Or.inr ⟨ps, post, htail⟩

theorem strContains_iff (hay needle : String) :
    strContains hay needle = true ↔ OccursIn needle hay :=
  containsSub_iff needle.data hay.data

/-! ### `tui.check_network_interfaces` and `tui.main`

The network-ports file is read with `dotenv_values`; we model the read
outcome as `Option (List (String × String))`: `none` when the file is
absent or unreadable (the function's `except` branches return `False`,
and `dotenv_values` yields an empty mapping for a missing file), `some kvs`
for a successfully read key/value configuration. -/

/-- Embedding of `tui.check_network_interfaces`: returns `true` iff any
value in the network-ports configuration contains the substring `"eth"`;
an absent/unreadable configuration yields `false`. -/
def check_network_interfaces (network_ports : Option (List (String × String))) : Bool :=
  match network_ports with
  | none => false
  | some kvs => kvs.any fun kv => strContains kv.2 "eth"

/-- The top-level view chosen by `tui.main`. -/
inductive TopView where
  | wizardFirstBoot
  | mainMenu
deriving DecidableEq, Repr

/-- Embedding of the branch of `tui.main`: the Setup Wizard is launched in
first-boot mode in place of the main menu iff `check_network_interfaces`
returns `true`. -/
def mainView (network_ports : Option (List (String × String))) : TopView :=
  if check_network_interfaces network_ports then .wizardFirstBoot else .mainMenu

/-- The claim's wording of the auto-launch condition: launch iff no named
port's value contains the expected interface-name substring `expected`
(absent/unreadable configuration still yields `false`). -/
def specAutoLaunch (expected : String)
    (network_ports : Option (List (String × String))) : Bool :=
  match network_ports with
  | none => false
  | some kvs => !(kvs.any fun kv => strContains kv.2 expected)

/-! ### Python keyword-argument binding for the step-screen constructors

`SetupWizard.__init__` builds its four steps by calling each screen
constructor with the keyword argument `initial_setup=…`.  In Python, a
call with a keyword that is not a parameter of the callee raises
`TypeError`.  We model each constructor as a function from the keyword
name used at the call site; it succeeds iff the keyword matches the
parameter name declared in the screen's `__init__`. -/

/-- A constructed step screen, tagged with the flag value it stored. -/
inductive StepScreen where
  | hostnameManager (initial_setup : Bool)
  | timezoneManager (setup_wizard : Bool)
  | timeManager (setup_wizard : Bool)
  | networkSelector (initial_setup : Bool)
deriving DecidableEq, Repr

/-- `HostnameManager.__init__(self, initial_setup: bool = False)`:
accepts the keyword `initial_setup`. -/
def hostnameManagerInit (kw : String) (b : Bool) : Except String StepScreen :=
  if kw = "initial_setup" then .ok (.hostnameManager b)
  else .error ("TypeError: HostnameManager.__init__() got an unexpected keyword argument " ++ kw)

/-- `TimezoneManager.__init__(self, setup_wizard: bool = False)`:
accepts the keyword `setup_wizard`, not `initial_setup`. -/
def timezoneManagerInit (kw : String) (b : Bool) : Except String StepScreen :=
  if kw = "setup_wizard" then .ok (.timezoneManager b)
  else .error ("TypeError: TimezoneManager.__init__() got an unexpected keyword argument " ++ kw)

/-- `TimeManager.__init__(self, setup_wizard: bool = False)`:
accepts the keyword `setup_wizard`, not `initial_setup`. -/
def timeManagerInit (kw : String) (b : Bool) : Except String StepScreen :=
  if kw = "setup_wizard" then .ok (.timeManager b)
  else .error ("TypeError: TimeManager.__init__() got an unexpected keyword argument " ++ kw)

/-- Modelled from the spec: `NetworkSelector` is not among the provided
source files; per the spec the embedded-in-wizard mode "is a
constructor-time flag on each step screen", so its constructor accepts
the flag keyword `initial_setup` used at the call site in
`SetupWizard.__init__`. -/
def networkSelectorInit (kw : String) (b : Bool) : Except String StepScreen :=
  if kw = "initial_setup" then .ok (.networkSelector b)
  else .error ("TypeError: NetworkSelector.__init__() got an unexpected keyword argument " ++ kw)

/-- The data `SetupWizard.__init__` would produce on success. -/
structure SetupWizardData where
  initial_setup : Bool
  steps : List (String × StepScreen)
  current_step_index : Nat
deriving Repr

/-- Embedding of `SetupWizard.__init__(initial_setup)`: builds the fixed
four-step list, passing every constructor the keyword `initial_setup`;
any `TypeError` from a step constructor propagates. -/
def SetupWizard.init (initial_setup : Bool) : Except String SetupWizardData := do
  let h ← hostnameManagerInit "initial_setup" initial_setup
  let tz ← timezoneManagerInit "initial_setup" initial_setup
  let tm ← timeManagerInit "initial_setup" initial_setup
  let ns ← networkSelectorInit "initial_setup" initial_setup
  pure { initial_setup := initial_setup
         steps := [("Set Hostname", h), ("Set Timezone", tz),
                   ("Set Time", tm), ("Configure Network", ns)]
         current_step_index := 0 }

/-! ### The Setup Wizard state machine

`SetupWizard`'s navigation methods (`update_body`, `next_step`, `back`,
`finish`) are embedded as transitions on an explicit state.  The steps
list always has four entries with the `NetworkSelector` at index 3, so
`stepCount = 4`. -/

def stepCount : Nat := 4

/-- What the wizard currently displays: a generic step pile (step screen,
divider, Next button), the network step's modal overlay, or the
completion screen rendered by `back`. -/
inductive WizardView where
  | stepPile (i : Nat)
  | networkOverlay
  | completionScreen
deriving DecidableEq, Repr

/-- The mutable state of a `SetupWizard` instance. -/
structure WizardState where
  initial_setup : Bool
  current_step_index : Nat
  view : WizardView
deriving DecidableEq, Repr

/-- Embedding of `SetupWizard.update_body`: the step at index 3 is the
`NetworkSelector`, presented through the pop-up frame; every other step
is placed into the pile together with the Next button. -/
def update_body (w : WizardState) : WizardState :=
  if w.current_step_index = 3 then { w with view := .networkOverlay }
  else { w with view := .stepPile w.current_step_index }

/-- Embedding of `SetupWizard.__init__`'s state initialisation: index 0,
then `update_body`. -/
def wizardInit (initial_setup : Bool) : WizardState :=
  update_body { initial_setup := initial_setup, current_step_index := 0,
                view := .stepPile 0 }

/-- Embedding of `SetupWizard.next_step`: advance and re-render only while
the index is strictly below the last step's index. -/
def next_step (w : WizardState) : WizardState :=
  if w.current_step_index < stepCount - 1 then
    update_body { w with current_step_index := w.current_step_index + 1 }
  else w

/-- Embedding of `SetupWizard.back` (the network step's `close` handler):
render the completion screen; the step index is not touched. -/
def wizardBack (w : WizardState) : WizardState :=
  { w with view := .completionScreen }

/-- Embedding of `SetupWizard.finish`: reset the index to 0, re-render,
then emit `close`. -/
def wizardFinish (w : WizardState) : WizardState :=
  update_body { w with current_step_index := 0 }

/-- The wizard operations an interactive session can invoke. -/
inductive WizardEvent where
  | nextEv
  | closeNetworkEv
  | finishEv
deriving DecidableEq, Repr

def wizardStep (w : WizardState) : WizardEvent → WizardState
  | .nextEv => next_step w
  | .closeNetworkEv => wizardBack w
  | .finishEv => wizardFinish w

def runWizard (w : WizardState) : List WizardEvent → WizardState
  | [] => w
  | e :: es => runWizard (wizardStep w e) es

/-! ### Signal wiring: `ActionDisplayNode.keypress` and the pop-up frame

urwid's `connect_signal` appends the callback to the widget's handler
list for the named signal, and emitting the signal invokes every
registered handler in order; `keypress` never disconnects a previously
connected handler.  A widget action's accumulated `close` handlers all
do the same thing — `launcher.close_pop_up()` — so it suffices to track
how many are registered. -/

/-- Modelled from the spec: `PopUpFrame` is not among the provided source
files; per the spec the Modal Overlay Host presents one overlay over a
base view, and `dismiss()` restores the base.  We track the overlay flag
and count `open`/`dismiss` calls. -/
structure PopUpFrame where
  popupOpen : Bool
  openCount : Nat
  dismissCount : Nat
deriving DecidableEq, Repr

/-- `PopUpFrame.close_pop_up` (the overlay dismiss). -/
def close_pop_up (h : PopUpFrame) : PopUpFrame :=
  { h with popupOpen := false, dismissCount := h.dismissCount + 1 }

/-- `PopUpFrame.open_pop_up` (present an overlay). -/
def open_pop_up (h : PopUpFrame) : PopUpFrame :=
  { h with popupOpen := true, openCount := h.openCount + 1 }

/-- The session-persistent state of one `ScreenAction` widget: the number
of `close` handlers currently connected to it (all of them
`lambda button: launcher.close_pop_up()`). -/
structure ScreenActionState where
  closeHandlers : Nat
deriving DecidableEq, Repr

/-- Embedding of the widget branch of `ActionDisplayNode.keypress` on
`enter`: connect one more `close` handler to the action, then present it
through the pop-up frame (`start()` hooks do not affect the wiring). -/
def activateScreenAction (a : ScreenActionState) (h : PopUpFrame) :
    ScreenActionState × PopUpFrame :=
  ({ closeHandlers := a.closeHandlers + 1 }, open_pop_up h)

/-- Embedding of urwid's `emit('close')` on the action: every connected
handler runs, each performing one `close_pop_up`. -/
def fireClose (a : ScreenActionState) (h : PopUpFrame) :
    ScreenActionState × PopUpFrame :=
  (a, close_pop_up^[a.closeHandlers] h)

/-! ### `HostnameManager.submit_hostname` -/

/-- The state of the hostname screen that `submit_hostname` reads and
writes: the stored current hostname, the edit field's text, the last
response message inserted into the pile, and the reboot-button flag. -/
structure HostnameState where
  initial_setup : Bool
  current_hostname : String
  hostname_input : String
  response : Option String
  reboot_button_displayed : Bool
deriving DecidableEq, Repr

/-- Result of one `submit_hostname` call: the new screen state, plus
whether `sudo hostnamectl set-hostname …` was invoked. -/
structure HostnameSubmitResult where
  state : HostnameState
  set_hostname_invoked : Bool
deriving DecidableEq, Repr

/-- Embedding of `HostnameManager.submit_hostname`.  `cmd` is the outcome
of `subprocess.run("sudo hostnamectl set-hostname …", check=True)`:
`.ok ()` for exit 0, `.error e` for a `CalledProcessError` rendered as
`e`.  The input is stripped; a non-empty result runs the command
(success: update current hostname, show the mode-dependent confirmation,
possibly reveal the reboot button, clear the field; failure: show the
error, all else untouched); an empty result only shows a validation
message. -/
def submit_hostname (cmd : Except String Unit) (s : HostnameState) :
    HostnameSubmitResult :=
  let new_hostname := pyStrip s.hostname_input
  if new_hostname ≠ "" then
    match cmd with
    | .ok () =>
        { state := { s with
            current_hostname := new_hostname
            response := some ("Hostname changed to: " ++ new_hostname ++
              (if s.initial_setup then ". Please click Next" else ". Please reboot."))
            reboot_button_displayed := s.reboot_button_displayed || s.initial_setup
            hostname_input := "" }
          set_hostname_invoked := true }
    | .error e =>
        { state := { s with response := some ("Failed to change hostname: " ++ e) }
          set_hostname_invoked := true }
  else
    { state := { s with response := some "Please provide a valid hostname." }
      set_hostname_invoked := false }

/-! ### More Python string primitives: `splitlines` and `split(sep, 1)` -/

/-- Split a character list on a separator character; like Python
`str.split('\n')` this keeps empty segments, including a trailing one. -/
def splitOnChar (c : Char) : List Char → List (List Char)
  | [] => [[]]
  | x :: xs =>
    let r := splitOnChar c xs
    if x = c then [] :: r
    else
      match r with
      | [] => [[x]]
      | h :: t => (x :: h) :: t

/-- Model of Python `str.splitlines()` restricted to `'\n'` line ends:
split on `'\n'`, dropping the empty segment a trailing newline produces
(`"".splitlines() == []`, `"a\n".splitlines() == ["a"]`). -/
def pySplitlines (s : String) : List String :=
  let parts := (splitOnChar '\n' s.data).map fun l => String.mk l
  if parts.getLast? = some "" then parts.dropLast else parts

/-- Model of Python `s.split(sep, 1)`: `some (before, after)` at the first
occurrence of `sep`, `none` when `sep` does not occur (in which case
Python's list has a single element and indexing `[1]` raises
`IndexError`). -/
def pySplitOnce (sep : List Char) : List Char → Option (List Char × List Char)
  | [] => if sep.isEmpty then some ([], []) else none
  | x :: xs =>
    if listIsPrefixOf sep (x :: xs) then some ([], (x :: xs).drop sep.length)
    else
      match pySplitOnce sep xs with
      | some (a, b) => some (x :: a, b)
      | none => none

/-! ### A model of `datetime.strptime(s, "%Y-%m-%d %H:%M:%S")`

CPython's `_strptime` compiles the format to a regex — `%Y` is exactly
four digits, `%m` matches `1[0-2]|0[1-9]|[1-9]`, `%d` matches
`3[01]|[12]\d|0[1-9]|[1-9]`, `%H` matches `2[0-3]|[0-1]\d|\d`, `%M`
matches `[0-5]\d|\d` and `%S` matches `6[0-1]|[0-5]\d|\d` — and requires
the whole string to be consumed; `datetime(…)` then additionally rejects
a day beyond the month's length, a second above 59 and year 0.  Because
every separator in this format is a non-digit, each field consumes a
maximal digit run, so the regex semantics reduce to per-run length/value
tests. -/

def isDigit (c : Char) : Bool := '0' ≤ c && c ≤ '9'

/-- Leading maximal digit run and the rest. -/
def digitRun (cs : List Char) : List Char × List Char :=
  (cs.takeWhile isDigit, cs.dropWhile isDigit)

/-- Numeric value of a digit run. -/
def digitsVal (cs : List Char) : Nat :=
  cs.foldl (fun n c => n * 10 + (c.toNat - '0'.toNat)) 0

def isLeapYear (y : Nat) : Bool :=
  y % 4 = 0 && (y % 100 ≠ 0 || y % 400 = 0)

def daysInMonth (y m : Nat) : Nat :=
  if m = 2 then (if isLeapYear y then 29 else 28)
  else if m = 4 || m = 6 || m = 9 || m = 11 then 30
  else 31

/-- A 1- or 2-digit field whose value must lie in `lo..hi` (1-digit runs
are capped at 9 by the single `\d`-class alternative). -/
def fieldOk (lo hi : Nat) (run : List Char) : Bool :=
  (run.length = 1 && lo ≤ digitsVal run && digitsVal run ≤ min hi 9) ||
  (run.length = 2 && lo ≤ digitsVal run && digitsVal run ≤ hi)

/-- `true` iff `datetime.strptime(s, "%Y-%m-%d %H:%M:%S")` succeeds. -/
def validDateTime (s : String) : Bool :=
  let (ys, r1) := digitRun s.data
  match r1 with
  | '-' :: r2 =>
    let (ms, r3) := digitRun r2
    match r3 with
    | '-' :: r4 =>
      let (ds, r5) := digitRun r4
      match r5 with
      | ' ' :: r6 =>
        let (hs, r7) := digitRun r6
        match r7 with
        | ':' :: r8 =>
          let (mins, r9) := digitRun r8
          match r9 with
          | ':' :: r10 =>
            let (ss, r11) := digitRun r10
            r11.isEmpty && ys.length = 4 && 1 ≤ digitsVal ys &&
              fieldOk 1 12 ms && fieldOk 1 31 ds &&
              fieldOk 0 23 hs && fieldOk 0 59 mins && fieldOk 0 59 ss &&
              digitsVal ds ≤ daysInMonth (digitsVal ys) (digitsVal ms)
          | _ => false
        | _ => false
      | _ => false
    | _ => false
  | _ => false

/-! ### `TimeManager`: `submit` and `get_current_time` -/

/-- The state of the time screen that `submit` reads and writes. -/
structure TimeState where
  setup_wizard : Bool
  ntp_enabled : Bool
  time_input : String
  current_time : String
  response : String
deriving DecidableEq, Repr

/-- Result of one `TimeManager.submit` call: the new screen state, plus
whether `sudo timedatectl set-time …` was invoked. -/
structure TimeSubmitResult where
  state : TimeState
  set_time_invoked : Bool
deriving DecidableEq, Repr

/-- Embedding of `TimeManager.clear_time_input_if_needed`: clear the edit
field iff NTP is disabled. -/
def clear_time_input_if_needed (s : TimeState) : TimeState :=
  if !s.ntp_enabled then { s with time_input := "" } else s

/-- Embedding of `TimeManager.submit`.  `setNtp` and `setTime` are the
outcomes of `timedatectl set-ntp` and `timedatectl set-time`
(`.error e` = `CalledProcessError` rendered as `e`).  The response is
cleared, NTP status applied, and — only when NTP is disabled — the
entered time is validated with `strptime` and applied; `ValueError` and
`CalledProcessError` are caught and shown; the `finally` block always
runs `clear_time_input_if_needed`. -/
def TimeManager.submit (setNtp : Except String Unit) (setTime : Except String Unit)
    (s : TimeState) : TimeSubmitResult :=
  let s0 := { s with response := "" }
  let body : TimeState × Bool :=
    match setNtp with
    | .error e =>
        ({ s0 with response := "Error updating system settings: " ++ e }, false)
    | .ok () =>
        let s1 := { s0 with response :=
          "NTP synchronization " ++ (if s0.ntp_enabled then "enabled" else "disabled") ++ " applied." }
        if s1.ntp_enabled then (s1, false)
        else
          let new_time := pyStrip s1.time_input
          if !validDateTime new_time then
            ({ s1 with response := "Failed to set time: Invalid format. Use YYYY-MM-DD HH:MM:SS." },
             false)
          else
            match setTime with
            | .ok () =>
                ({ s1 with
                    current_time := new_time
                    response := "Time successfully changed to " ++ new_time ++ ". " ++
                      (if s1.setup_wizard then "Click next to proceed." else "Please reboot.") },
                 true)
            | .error e =>
                ({ s1 with response := "Error updating system settings: " ++ e }, true)
  { state := clear_time_input_if_needed body.1, set_time_invoked := body.2 }

/-- Embedding of `TimeManager.get_current_time`.  `status` is the outcome
of `subprocess.check_output(['timedatectl', 'status'])`: `.error ()` for
a raised `CalledProcessError`/`FileNotFoundError`/`OSError` (caught,
sentinel returned), `.ok out` for the command's stdout.  The result's
`.error` constructor models a Python exception escaping the function:
`IndexError` when a "Local time" line lacks `": "`, `UnboundLocalError`
when no line contains "Local time" at all. -/
def get_current_time (status : Except Unit String) : Except String String :=
  match status with
  | .error () => .ok "Failed to Determine Time"
  | .ok out =>
    let step : Except String (Option String) → String → Except String (Option String) :=
      fun acc line =>
        match acc with
        | .error e => .error e
        | .ok cur =>
          if strContains line "Local time" then
            match pySplitOnce ": ".data (pyStrip line).data with
            | some (_, after) => .ok (some (String.mk after))
            | none => .error "IndexError: list index out of range"
          else .ok cur
    match (pySplitlines out).foldl step (.ok none) with
    | .error e => .error e
    | .ok (some t) => .ok t
    | .ok none => .error "UnboundLocalError: local variable referenced before assignment"

/-! ### `TimezoneManager.select_timezone` -/

/-- The state of the timezone screen that `select_timezone` reads and
writes, including whether the urwid screen driver is running. -/
structure TimezoneState where
  setup_wizard : Bool
  screen_running : Bool
  current_timezone : String
  error_shown : Bool
  message : Option String
deriving DecidableEq, Repr

/-- Embedding of `TimezoneManager.reset_layout`: rebuilds the pile,
re-reads the timezone (`readTz`), and shows the mode-dependent success
message. -/
def reset_layout (readTz : String) (s : TimezoneState) : TimezoneState :=
  { s with
      current_timezone := readTz
      message := some ("Timezone is set to " ++ readTz ++
        (if s.setup_wizard then ". Please click Next to proceed."
         else ". Please reboot to apply changes.")) }

/-- Result of one `select_timezone` call: the new screen state, whether
`timedatectl set-timezone` was invoked and with which argument, and
`outcome` (`.error` = a Python exception escaping the method). -/
structure TimezoneSelectResult where
  state : TimezoneState
  set_timezone_arg : Option String
  outcome : Except String Unit
deriving Repr

/-- Embedding of `TimezoneManager.select_timezone`.  `tzOut` is the
outcome of `subprocess.check_output(['tzselect'])` (`.error e` =
`CalledProcessError`), `setTz` the outcome of
`timedatectl set-timezone …`, `readTz` what `get_current_timezone()`
returns afterwards.  The method stops the screen driver, runs
`tzselect`, takes the last output line as the selection and applies it;
`CalledProcessError` is caught and shown; the `finally` block restarts
the screen driver and resets the layout on every path, including the
uncaught `IndexError` on empty `tzselect` output. -/
def select_timezone (tzOut : Except String String) (setTz : Except String Unit)
    (readTz : String) (s : TimezoneState) : TimezoneSelectResult :=
  let s1 := { s with screen_running := false }
  let body : TimezoneState × Option String × Except String Unit :=
    match tzOut with
    | .error _ => ({ s1 with error_shown := true }, none, .ok ())
    | .ok out =>
      match (pySplitlines out).getLast? with
      | none => (s1, none, .error "IndexError: list index out of range")
      | some lastLine =>
        let selected := pyStrip lastLine
        match setTz with
        | .ok () => ({ s1 with current_timezone := readTz }, some selected, .ok ())
        | .error _ => ({ s1 with error_shown := true }, some selected, .ok ())
  let s2 := reset_layout readTz { body.1 with screen_running := true }
  { state := s2, set_timezone_arg := body.2.1, outcome := body.2.2 }

/-! ## Helper lemmas -/

theorem update_body_index (w : WizardState) :
    (update_body w).current_step_index = w.current_step_index := by
  unfold update_body; split <;> rfl

theorem next_step_index (w : WizardState) :
    (next_step w).current_step_index =
      if w.current_step_index < stepCount - 1 then w.current_step_index + 1
      else w.current_step_index := by
  unfold next_step
  split
  · rw [update_body_index]
  · rfl

theorem wizardStep_index_lt (w : WizardState) (e : WizardEvent)
    (hw : w.current_step_index < stepCount) :
    (wizardStep w e).current_step_index < stepCount := by
  cases e with
  | nextEv =>
    show (next_step w).current_step_index < stepCount
    rw [next_step_index]
    split <;> omega
  | closeNetworkEv => exact hw
  | finishEv =>
    show (wizardFinish w).current_step_index < stepCount
    unfold wizardFinish
    rw [update_body_index]
    show (0 : Nat) < stepCount
    decide

theorem runWizard_index_lt (w : WizardState) (evs : List WizardEvent)
    (hw : w.current_step_index < stepCount) :
    (runWizard w evs).current_step_index < stepCount := by
  induction evs generalizing w with
  | nil => exact hw
  | cons e es ih => exact ih _ (wizardStep_index_lt w e hw)

theorem close_pop_up_iterate_dismissCount (n : Nat) (h : PopUpFrame) :
    (close_pop_up^[n] h).dismissCount = h.dismissCount + n := by
  induction n generalizing h with
  | zero => rfl
  | succ k ih =>
    rw [Function.iterate_succ_apply, ih]
    simp [close_pop_up]
    omega

/-! ## Claims -/

/-- C1: the claim states that constructing the Setup Wizard in either
mode succeeds, building the four-step sequence with the
embedded-in-wizard flag passed to each step screen's constructor.  In
the code, `SetupWizard.__init__` passes the keyword `initial_setup` to
every step constructor, but `TimezoneManager.__init__` and
`TimeManager.__init__` name the parameter `setup_wizard`, so
construction raises `TypeError` in both modes — the wizard's own
documented usage (`SetupWizard()` then run the loop) cannot work.  This
theorem evaluates the embedded constructor at both flag values and shows
the `TypeError`. -/
theorem setupWizard_construction_raises_TypeError :
    SetupWizard.init true =
      .error "TypeError: TimezoneManager.__init__() got an unexpected keyword argument initial_setup" ∧
    SetupWizard.init false =
      .error "TypeError: TimezoneManager.__init__() got an unexpected keyword argument initial_setup" :=
  ⟨rfl, rfl⟩

/-- C2 counterexample: the claim states the wizard auto-launches if and
only if no named port's value contains the expected interface-name
substring.  For a configuration file that is present but names no ports,
no value contains the expected substring (whatever that substring is),
so the claim requires a launch — but `check_network_interfaces` returns
`false` and `main` shows the main menu. -/
theorem check_network_interfaces_claim_counterexample :
    check_network_interfaces (some []) = false ∧
    mainView (some []) = .mainMenu ∧
    (∀ expected : String, specAutoLaunch expected (some []) = true) :=
  ⟨rfl, rfl, fun _ => rfl⟩

/-- C2 amended: before building the main menu the shell reads the
network-port configuration and auto-launches the Setup Wizard in
first-boot mode if and only if SOME named port's value contains the
substring `"eth"` (the default, pre-rename interface naming); when the
configuration source is absent or unreadable the check yields `false`
(no auto-launch) and is never fatal. -/
theorem check_network_interfaces_spec (cfg : Option (List (String × String))) :
    (check_network_interfaces cfg = true ↔
      ∃ kv ∈ cfg.getD [], OccursIn "eth" kv.2) ∧
    check_network_interfaces none = false ∧
    (mainView cfg = .wizardFirstBoot ↔ check_network_interfaces cfg = true) := by
  refine ⟨?_, rfl, ?_⟩
  · cases cfg with
    | none => simp [check_network_interfaces]
    | some kvs =>
      simp only [check_network_interfaces, List.any_eq_true, Option.getD_some]
      constructor
      · rintro ⟨kv, hmem, hc⟩
        exact ⟨kv, hmem, (strContains_iff kv.2 "eth").mp hc⟩
      · rintro ⟨kv, hmem, ho⟩
        exact ⟨kv, hmem, (strContains_iff kv.2 "eth").mpr ho⟩
  · unfold mainView
    cases h : check_network_interfaces cfg <;> simp [h]

/-- C3 counterexample: the claim states that firing a presented
ScreenAction's `close` notification triggers exactly one dismiss, even
when the same instance has been activated multiple times.  In the code,
`ActionDisplayNode.keypress` connects a fresh `close → close_pop_up`
handler on every activation and never disconnects, so after the second
activation of the same instance one `close` emission runs two handlers:
the dismiss count rises by 2, not 1. -/
theorem close_after_second_activation_double_dismiss :
    (let p1 := activateScreenAction ⟨0⟩ ⟨false, 0, 0⟩
     let p2 := fireClose p1.1 p1.2
     let p3 := activateScreenAction p2.1 p2.2
     let p4 := fireClose p3.1 p3.2
     p4.2.dismissCount - p3.2.dismissCount) = 2 := by decide

/-- C3 amended: firing a presented ScreenAction's `close` notification
triggers one dismiss per activation so far of that instance (each
activation appends a handler and none is ever removed): after `n`
activations one emission performs `n` dismisses, so exactly one dismiss
holds precisely for an instance activated once. -/
theorem fireClose_one_dismiss_per_activation (a : ScreenActionState) (h : PopUpFrame) :
    (fireClose a h).2.dismissCount = h.dismissCount + a.closeHandlers ∧
    (activateScreenAction a h).1.closeHandlers = a.closeHandlers + 1 ∧
    (activateScreenAction a h).2.dismissCount = h.dismissCount ∧
    (fireClose ⟨1⟩ h).2.dismissCount = h.dismissCount + 1 :=
  ⟨close_pop_up_iterate_dismissCount a.closeHandlers h, rfl, rfl,
   close_pop_up_iterate_dismissCount 1 h⟩

/-- C4 counterexample: the claim states that firing Next `N-1 = 3` times
from step 0 reaches the Completed state.  In the code, three `next_step`
calls reach `current_step_index = 3` — the network step, presented as a
modal overlay — and only that step's close-driven `back` transition
renders the completion screen; after three Nexts the wizard is not in
the completed state, in either mode. -/
theorem wizard_three_nexts_not_completed :
    (runWizard (wizardInit false) [.nextEv, .nextEv, .nextEv]).view ≠ .completionScreen ∧
    (runWizard (wizardInit true) [.nextEv, .nextEv, .nextEv]).view ≠ .completionScreen ∧
    (runWizard (wizardInit false) [.nextEv, .nextEv, .nextEv]).view = .networkOverlay := by
  decide

/-- C4 amended: starting at step 0 with N=4 steps, firing Next N-1 times
reaches the LAST step (index 3, the network step presented as a modal
overlay); the network step's close-driven transition then reaches the
completion screen; and firing Next while already at the last step,
before that transition, is a no-op (it changes neither the step index
nor the displayed content). -/
theorem wizard_next_sequence (b : Bool) :
    (runWizard (wizardInit b) [.nextEv, .nextEv, .nextEv]).current_step_index = stepCount - 1 ∧
    (runWizard (wizardInit b) [.nextEv, .nextEv, .nextEv]).view = .networkOverlay ∧
    next_step (runWizard (wizardInit b) [.nextEv, .nextEv, .nextEv]) =
      runWizard (wizardInit b) [.nextEv, .nextEv, .nextEv] ∧
    (wizardBack (runWizard (wizardInit b) [.nextEv, .nextEv, .nextEv])).view =
      .completionScreen := by
  cases b <;> decide

/-- C5: the wizard's `current_step_index` (a natural number, hence always
≥ 0) stays below the step count after any sequence of operations from
the initial state; `next_step` either leaves it unchanged or increments
it by exactly one and never decreases it; the close-driven completion
transition (`back`) leaves it unchanged; and only the finish path resets
it to 0. -/
theorem wizard_index_forward_invariant (b : Bool) (evs : List WizardEvent)
    (w : WizardState) :
    (runWizard (wizardInit b) evs).current_step_index < stepCount ∧
    ((next_step w).current_step_index = w.current_step_index ∨
      (next_step w).current_step_index = w.current_step_index + 1) ∧
    w.current_step_index ≤ (next_step w).current_step_index ∧
    (wizardBack w).current_step_index = w.current_step_index ∧
    (wizardFinish w).current_step_index = 0 := by
  refine ⟨runWizard_index_lt _ evs ?_, ?_, ?_, rfl, ?_⟩
  · cases b <;> decide
  · rw [next_step_index]; split <;> simp
  · rw [next_step_index]; split <;> omega
  · show (update_body _).current_step_index = 0
    rw [update_body_index]

/-- C6 counterexample: the claim states that submitting an input equal to
the current hostname produces a "same as current" message without
invoking the set-hostname command.  In the code, `submit_hostname` only
checks non-emptiness: with current hostname "device1" and input
"device1" it runs `hostnamectl set-hostname` and shows the generic
"Hostname changed" confirmation. -/
theorem hostname_same_as_current_counterexample :
    (submit_hostname (.ok ())
      ⟨false, "device1", "device1", none, false⟩).set_hostname_invoked = true ∧
    (submit_hostname (.ok ())
      ⟨false, "device1", "device1", none, false⟩).state.response =
        some "Hostname changed to: device1. Please reboot." := by decide

/-- C6 amended: the hostname screen's Submit validates only that the
stripped input is non-empty — an empty input produces the validation
message "Please provide a valid hostname." and leaves the current
hostname, the input field and the command state untouched; an input
equal to the current hostname is NOT specially detected: the
set-hostname command is invoked like for any non-empty input, and on
success the displayed current hostname keeps the same value. -/
theorem submit_hostname_validation (cmd : Except String Unit) (s s' : HostnameState)
    (he : pyStrip s.hostname_input = "")
    (hs : pyStrip s'.hostname_input = s'.current_hostname)
    (hne : s'.current_hostname ≠ "") :
    (submit_hostname cmd s).state.current_hostname = s.current_hostname ∧
    (submit_hostname cmd s).state.response = some "Please provide a valid hostname." ∧
    (submit_hostname cmd s).set_hostname_invoked = false ∧
    (submit_hostname (.ok ()) s').set_hostname_invoked = true ∧
    (submit_hostname (.ok ()) s').state.current_hostname = s'.current_hostname := by
  simp [submit_hostname, he, hs, hne]

/-- C6 witness. -/
theorem submit_hostname_validation_witness :
    pyStrip ("   " : String) = "" ∧
    pyStrip "device1" = "device1" ∧
    ("device1" : String) ≠ "" ∧
    ((submit_hostname (.ok ())
        ⟨false, "device1", "   ", none, false⟩).state.current_hostname = "device1" ∧
     (submit_hostname (.ok ())
        ⟨false, "device1", "   ", none, false⟩).state.response =
          some "Please provide a valid hostname." ∧
     (submit_hostname (.ok ())
        ⟨false, "device1", "   ", none, false⟩).set_hostname_invoked = false ∧
     (submit_hostname (.ok ())
        ⟨false, "device1", "device1", none, false⟩).set_hostname_invoked = true ∧
     (submit_hostname (.ok ())
        ⟨false, "device1", "device1", none, false⟩).state.current_hostname = "device1") :=
  ⟨by decide, by decide, by decide,
   submit_hostname_validation (.ok ()) ⟨false, "device1", "   ", none, false⟩
     ⟨false, "device1", "device1", none, false⟩ (by decide) (by decide) (by decide)⟩

/-- C7 counterexample: the claim states that when the set-hostname
command exits non-zero the input field is cleared.  In the code, only
the success branch runs `set_edit_text("")`: after a failed submit of
"device2" the field still holds "device2" (while the current hostname is
indeed unchanged and the error is shown). -/
theorem hostname_failure_keeps_field_counterexample :
    (submit_hostname (.error "Command returned non-zero exit status 1.")
      ⟨false, "device1", "device2", none, false⟩).state.hostname_input = "device2" ∧
    (submit_hostname (.error "Command returned non-zero exit status 1.")
      ⟨false, "device1", "device2", none, false⟩).state.current_hostname = "device1" ∧
    (submit_hostname (.error "Command returned non-zero exit status 1.")
      ⟨false, "device1", "device2", none, false⟩).state.response =
        some "Failed to change hostname: Command returned non-zero exit status 1." := by
  decide

/-- C7 amended: when the set-hostname command exits non-zero the screen
changes only by showing the failure message — the displayed current
hostname AND the input field are left as they were (the field is not
cleared on failure); the field is cleared only by a successful
submit. -/
theorem submit_hostname_failure (e : String) (s : HostnameState)
    (hne : pyStrip s.hostname_input ≠ "") :
    (submit_hostname (.error e) s).state =
      { s with response := some ("Failed to change hostname: " ++ e) } ∧
    (submit_hostname (.ok ()) s).state.hostname_input = "" := by
  simp [submit_hostname, hne]

/-- C7 witness. -/
theorem submit_hostname_failure_witness :
    pyStrip ("device2" : String) ≠ "" ∧
    ((submit_hostname (.error "boom")
        ⟨false, "device1", "device2", none, false⟩).state =
      { (⟨false, "device1", "device2", none, false⟩ : HostnameState) with
          response := some ("Failed to change hostname: " ++ "boom") } ∧
     (submit_hostname (.ok ())
        ⟨false, "device1", "device2", none, false⟩).state.hostname_input = "") :=
  ⟨by decide,
   submit_hostname_failure "boom" ⟨false, "device1", "device2", none, false⟩ (by decide)⟩

/-- C8 counterexample: the claim states that after any failed submit the
time input field is not cleared, so the operator can retry without
retyping.  In the code, `clear_time_input_if_needed` runs in the
`finally` block and clears the field whenever NTP is disabled — which is
exactly the case in which a manual time entry can fail: submitting the
invalid "2024-13-40 99:99:99" with NTP disabled shows the validation
error, never invokes set-time, leaves the clock untouched, and yet
clears the field. -/
theorem time_invalid_submit_clears_field_counterexample :
    (TimeManager.submit (.ok ()) (.ok ())
      ⟨true, false, "2024-13-40 99:99:99", "t0", ""⟩).state.time_input = "" ∧
    (TimeManager.submit (.ok ()) (.ok ())
      ⟨true, false, "2024-13-40 99:99:99", "t0", ""⟩).set_time_invoked = false ∧
    (TimeManager.submit (.ok ()) (.ok ())
      ⟨true, false, "2024-13-40 99:99:99", "t0", ""⟩).state.response =
        "Failed to set time: Invalid format. Use YYYY-MM-DD HH:MM:SS." ∧
    (TimeManager.submit (.ok ()) (.ok ())
      ⟨true, false, "2024-13-40 99:99:99", "t0", ""⟩).state.current_time = "t0" := by
  decide

/-- C8 amended: on the time screen a Submit with an invalidly formatted
time shows the validation error and leaves the system clock untouched
(set-time is not invoked) — but the input field is cleared by the
`finally` block whenever NTP is disabled, on failed and successful
submits alike; the field is retained (regardless of outcome) only when
NTP is enabled. -/
theorem time_submit_invalid_format (setTime : Except String Unit) (s s2 : TimeState)
    (setNtp2 setTime2 : Except String Unit)
    (h1 : s.ntp_enabled = false)
    (h2 : validDateTime (pyStrip s.time_input) = false)
    (h3 : s2.ntp_enabled = true) :
    (TimeManager.submit (.ok ()) setTime s).state.response =
      "Failed to set time: Invalid format. Use YYYY-MM-DD HH:MM:SS." ∧
    (TimeManager.submit (.ok ()) setTime s).set_time_invoked = false ∧
    (TimeManager.submit (.ok ()) setTime s).state.current_time = s.current_time ∧
    (TimeManager.submit (.ok ()) setTime s).state.time_input = "" ∧
    (TimeManager.submit setNtp2 setTime2 s2).state.time_input = s2.time_input := by
  refine ⟨?_, ?_, ?_, ?_, ?_⟩
  · simp [TimeManager.submit, clear_time_input_if_needed, h1, h2]
  · simp [TimeManager.submit, clear_time_input_if_needed, h1, h2]
  · simp [TimeManager.submit, clear_time_input_if_needed, h1, h2]
  · simp [TimeManager.submit, clear_time_input_if_needed, h1, h2]
  · cases setNtp2 <;> simp [TimeManager.submit, clear_time_input_if_needed, h3]

/-- C8 witness. -/
theorem time_submit_invalid_format_witness :
    (⟨true, false, "2024-13-40 99:99:99", "t0", ""⟩ : TimeState).ntp_enabled = false ∧
    validDateTime (pyStrip "2024-13-40 99:99:99") = false ∧
    (⟨false, true, "x", "t1", ""⟩ : TimeState).ntp_enabled = true ∧
    ((TimeManager.submit (.ok ()) (.ok ())
        ⟨true, false, "2024-13-40 99:99:99", "t0", ""⟩).state.response =
          "Failed to set time: Invalid format. Use YYYY-MM-DD HH:MM:SS." ∧
     (TimeManager.submit (.ok ()) (.ok ())
        ⟨true, false, "2024-13-40 99:99:99", "t0", ""⟩).set_time_invoked = false ∧
     (TimeManager.submit (.ok ()) (.ok ())
        ⟨true, false, "2024-13-40 99:99:99", "t0", ""⟩).state.current_time = "t0" ∧
     (TimeManager.submit (.ok ()) (.ok ())
        ⟨true, false, "2024-13-40 99:99:99", "t0", ""⟩).state.time_input = "" ∧
     (TimeManager.submit (.ok ()) (.ok ())
        ⟨false, true, "x", "t1", ""⟩).state.time_input = "x") :=
  ⟨by decide, by decide, by decide,
   time_submit_invalid_format (.ok ()) ⟨true, false, "2024-13-40 99:99:99", "t0", ""⟩
     ⟨false, true, "x", "t1", ""⟩ (.ok ()) (.ok ()) (by decide) (by decide) (by decide)⟩

/-- C9: the claim matches the spec table — on a non-zero exit OR an
output with no "Local time" line, `get_current_time` should return the
sentinel "Failed to Determine Time" and never raise.  The code catches
the subprocess exceptions and returns the sentinel, but when the command
succeeds with no "Local time" line the local `current_time` is never
assigned and the `return` raises `UnboundLocalError` — contradicting the
function's own docstring ("Returns: str") and the spec's clear intent,
so the code is the bug.  This theorem evaluates the embedding at the
failing input and at the two intended cases. -/
theorem get_current_time_missing_line_raises :
    get_current_time (.ok "System clock synchronized: yes") =
      .error "UnboundLocalError: local variable referenced before assignment" ∧
    get_current_time (.error ()) = .ok "Failed to Determine Time" ∧
    get_current_time (.ok "   Local time: Tue 2024-01-02 03:04:05 UTC\nRTC time: n/a") =
      .ok "Tue 2024-01-02 03:04:05 UTC" :=
  ⟨rfl, rfl, rfl⟩

/-- C10: `select_timezone` stops the screen driver, runs `tzselect`,
takes the last output line as the picked timezone and passes it to
`timedatectl set-timezone`; on every outcome — `tzselect` failing,
`set-timezone` exiting non-zero, or even the uncaught `IndexError` on
empty output — the `finally` block restarts the screen driver before the
method returns, so the final state always has the screen running. -/
theorem select_timezone_screen_always_resumed (tzOut : Except String String)
    (setTz : Except String Unit) (readTz : String) (s : TimezoneState) :
    (select_timezone tzOut setTz readTz s).state.screen_running = true ∧
    (select_timezone (.ok "America/New_York\n") setTz readTz s).set_timezone_arg =
      some "America/New_York" := by
  constructor
  · rfl
  · cases setTz <;> rfl

end Catena
